import Mathlib

/-!
Verification of the ShellHub SSH broker's public-key authenticator and
session-channel broker (ssh/server/handler/publickey.go and the channels
package in the same source bundle), as a shallow embedding in Lean 4.

External collaborators (the internal API client, the SSH transport, the
gliderssh context) are modelled as oracles: an environment record carries,
for each external call the code makes, the outcome that call would return.
The embedded functions mirror the Go control flow over those outcomes.
-/

namespace ShellHub

/-! ## Authenticator (`PublicKey` in ssh/server/handler/publickey.go)

The Go function receives a public key, computes its legacy-MD5 fingerprint,
recovers the SSHID from the connection context, parses it into a target,
resolves the device (either by splitting a composite SSHID or by a direct
API device fetch, followed in both cases by a device lookup), builds the
magic public key, and then either bypasses (magic fingerprint match) or
consults `GetPublicKey` and `EvaluateKey`. -/

/-- The parsed login target (`ssh/pkg/target`): the raw string, whether it is
a composite SSHID, and the requested username. -/
structure Target where
  data : String
  isSSHID : Bool
  username : String
deriving DecidableEq

/-- The device record fetched from the API; only the fields the handler
reads. -/
structure Device where
  uid : String
  name : String
  namespaceName : String
  tenantID : String
deriving DecidableEq

/-- Oracle environment for one `PublicKey` invocation: the outcome of each
external call the Go code can make, in the order the code makes them.
`none` models the corresponding Go error/failure branch. -/
structure AuthEnv where
  /-- `ctx.Value(gliderssh.ContextKeyUser).(string)`: the SSHID stored in the
  context, `none` when the type assertion fails. -/
  ctxUser : Option String
  /-- `target.NewTarget sshid`: parsing the login identifier. -/
  newTarget : String → Option Target
  /-- `tag.SplitSSHID()`: namespace and hostname of a composite SSHID. -/
  splitSSHID : Target → Option (String × String)
  /-- `api.GetDevice(tag.Data)`: direct device fetch. -/
  getDevice : String → Option Device
  /-- `api.DeviceLookup{domain, name}`: `none` models a non-empty error
  slice. -/
  deviceLookup : String → String → Option Device
  /-- Fingerprint of `ssh.NewPublicKey(magickey.GetRerefence().PublicKey)`;
  `none` models the conversion error branch. -/
  magicFingerprint : Option String
  /-- `api.GetPublicKey fingerprint tenant` succeeded (no error). -/
  getPublicKey : String → String → Bool
  /-- `api.EvaluateKey fingerprint device username`: the boolean result and
  whether an error was returned. -/
  evaluateKey : String → Device → String → Bool × Bool

/-- Result of the authenticator, together with which of the two key API
calls were made (used to state the magic-key bypass property). -/
structure AuthResult where
  accept : Bool
  calledGetPublicKey : Bool
  calledEvaluateKey : Bool
deriving DecidableEq

/-- The `lookup` map the Go code builds: from a composite SSHID via
`SplitSSHID`, otherwise from a `GetDevice` fetch by the raw identifier. -/
def lookupPair (env : AuthEnv) (tag : Target) : Option (String × String) :=
  if tag.isSSHID then
    env.splitSSHID tag
  else
    match env.getDevice tag.data with
    | none => none
    | some device => some (device.namespaceName, device.name)

/-- Device resolution: build the lookup map and call `DeviceLookup`. -/
def resolveDevice (env : AuthEnv) (tag : Target) : Option Device :=
  match lookupPair env tag with
  | none => none
  | some (domain, name) => env.deviceLookup domain name

/-- Shallow embedding of `PublicKey`: every early `return false` of the Go
code becomes a rejecting result; the final `return true` an accepting one.
`fingerprint` is the legacy-MD5 fingerprint of the presented key. -/
def publicKey (env : AuthEnv) (fingerprint : String) : AuthResult :=
  match env.ctxUser with
  | none => ⟨false, false, false⟩
  | some sshid =>
    match env.newTarget sshid with
    | none => ⟨false, false, false⟩
    | some tag =>
      match resolveDevice env tag with
      | none => ⟨false, false, false⟩
      | some device =>
        match env.magicFingerprint with
        | none => ⟨false, false, false⟩
        | some magic =>
          if magic ≠ fingerprint then
            if env.getPublicKey fingerprint device.tenantID then
              match env.evaluateKey fingerprint device tag.username with
              | (ok, hasErr) =>
                if ok && !hasErr then ⟨true, true, true⟩ else ⟨false, true, true⟩
            else
              ⟨false, true, false⟩
          else
            ⟨true, false, false⟩

/-! ## Channel broker (`DefaultSessionHandler` in the channels package)

The handler registers deferred cleanups (`conn.Close`, `sess.Finish`,
`client.Close`, `agent.Close`, in that registration order, hence run in the
reverse order on exit), then runs a `select` loop over four event sources.
The Go `select` nondeterminism is collapsed into an explicit arrival-ordered
event list; each request event carries the outcomes of the external calls
the loop makes while handling it (`SendRequest` error and boolean result,
`Reply` error, `KeepAlive` error). -/

/-- SSH request types the broker dispatches on; every other type string
falls into `other`. -/
inductive ReqType
  | shell
  | exec
  | subsystem
  | ptyReq
  | windowChange
  | keepalive
  | other (s : String)
deriving DecidableEq

/-- Whether a request type is one of the three program-start types of
RFC 4254 section 6.5 (`shell`, `exec`, `subsystem`). -/
def ReqType.isProgram : ReqType → Bool
  | .shell => true
  | .exec => true
  | .subsystem => true
  | _ => false

/-- Whether a request type is the custom `keepalive` type. -/
def ReqType.isKeepaliveType : ReqType → Bool
  | .keepalive => true
  | _ => false

/-- Whether a request type is `window-change`. -/
def ReqType.isWindowChangeType : ReqType → Bool
  | .windowChange => true
  | _ => false

/-- Modelled from the spec: the `session.Pty` struct of the ssh session
package is not under src; the spec gives the `pty-req` payload as
`{term, columns, rows, pixel-width, pixel-height, modes}` and the session's
pseudo-terminal state as `{columns, rows, term-type}`. The term bytes are
kept raw. -/
structure Pty where
  term : List Nat
  columns : Nat
  rows : Nat
  width : Nat
  height : Nat
deriving DecidableEq

/-- The Go zero value of `session.Pty`, which a failed `gossh.Unmarshal`
into a fresh local variable leaves behind when it fails on the first
field. -/
def Pty.zero : Pty := ⟨[], 0, 0, 0, 0⟩

/-- Modelled from the spec: the `window-change` payload
`{columns, rows, pixel-width, pixel-height}`. -/
structure Dimensions where
  columns : Nat
  rows : Nat
  width : Nat
  height : Nat
deriving DecidableEq

/-- A channel request (client-to-agent or agent-to-client), together with
the outcomes of the external calls made while handling it: whether the
forwarding `SendRequest` errored, the boolean result it returned, and
whether the `req.Reply` call (if made) errored. -/
structure ChanReq where
  rtype : ReqType
  wantReply : Bool
  payload : List Nat
  sendErr : Bool
  sendOk : Bool
  replyErr : Bool
deriving DecidableEq

/-- A global request from the agent, with the outcome of the
`sess.KeepAlive()` call (if made) and of the `req.Reply` call (if made). -/
structure GlobalReq where
  rtype : ReqType
  wantReply : Bool
  keepAliveErr : Bool
  replyErr : Bool
deriving DecidableEq

/-- One arrival at the multiplex loop's `select`: context cancellation, one
of the three request channels closing, or a request on one of them. -/
inductive Event
  | ctxDone
  | agentGlobalClosed
  | agentGlobal (r : GlobalReq)
  | clientClosed
  | clientReq (r : ChanReq)
  | agentReqsClosed
  | agentReq (r : ChanReq)
deriving DecidableEq

/-- Observable actions of the handler, in program order: forwarded requests,
replies (the `Reply` calls made, whether or not they then fail), the
keep-alive API call, the shell announcement, starting a data pipe, channel
rejection, and the deferred cleanups. -/
inductive Effect
  | sendToAgent (t : ReqType) (wantReply : Bool) (payload : List Nat)
  | sendToClient (t : ReqType) (wantReply : Bool) (payload : List Nat)
  | replyClient (t : ReqType) (granted : Bool) (payload : Option (List Nat))
  | replyAgent (granted : Bool)
  | replyAgentGlobal (granted : Bool)
  | keepAliveCall
  | announce
  | startPipe (t : ReqType)
  | rejectChannel (msg : String)
  | closeAgent
  | closeClient
  | finish
  | closeConn
deriving DecidableEq

/-- Mutable state of the loop: the mutex-guarded `started` flag and the
session's pseudo-terminal state `sess.Pty`. -/
structure LoopState where
  started : Bool
  pty : Pty
deriving DecidableEq

/-- Oracle environment for the loop: the behaviour of `gossh.Unmarshal` on
the `pty-req` and `window-change` payloads (`none` = decode error). -/
structure LoopEnv where
  decodePty : List Nat → Option Pty
  decodeDims : List Nat → Option Dimensions

/-- One iteration of the multiplex loop: the next state, the effects emitted
in program order, and whether the loop `return`s (exits). Mirrors the Go
`select` body case by case; `reject` inside the loop emits `rejectChannel`
but does not return, exactly as in the source. -/
def step (env : LoopEnv) (s : LoopState) : Event → LoopState × List Effect × Bool
  | .ctxDone => (s, [], true)
  | .agentGlobalClosed => (s, [], true)
  | .clientClosed => (s, [], true)
  | .agentReqsClosed => (s, [], true)
  | .agentGlobal r =>
    match r.rtype with
    | .keepalive =>
      if r.keepAliveErr then
        (s, [.keepAliveCall], true)
      else
        -- a failing reply to the keep-alive is only logged; the loop continues
        (s, [.keepAliveCall, .replyAgentGlobal false], false)
    | _ =>
      if r.wantReply then
        -- a failing reply here is only logged; the loop continues
        (s, [.replyAgentGlobal false], false)
      else
        (s, [], false)
  | .clientReq r =>
    let fwd := Effect.sendToAgent r.rtype r.wantReply r.payload
    if r.sendErr then
      -- `continue`: the request is dropped without reply
      (s, [fwd], false)
    else if r.rtype.isProgram then
      if s.started then
        -- a program already started: reply false; a failing reply returns
        (s, [fwd, .replyClient r.rtype false none], r.replyErr)
      else if r.wantReply then
        if r.replyErr then
          (s, [fwd, .replyClient r.rtype r.sendOk (some [])], true)
        else
          ({ s with started := true },
            [fwd, .replyClient r.rtype r.sendOk (some [])] ++
              (if r.rtype = .shell then [Effect.announce] else []) ++
              [.startPipe r.rtype],
            false)
      else
        (s, [fwd], false)
    else
      match r.rtype with
      | .ptyReq =>
        match env.decodePty r.payload with
        | some pty =>
          if r.wantReply then
            ({ s with pty := pty }, [fwd, .replyClient .ptyReq r.sendOk none], r.replyErr)
          else
            ({ s with pty := pty }, [fwd], false)
        | none =>
          if r.wantReply then
            ({ s with pty := Pty.zero },
              [fwd, .rejectChannel "failed to recover the session dimensions",
                .replyClient .ptyReq r.sendOk none],
              r.replyErr)
          else
            ({ s with pty := Pty.zero },
              [fwd, .rejectChannel "failed to recover the session dimensions"], false)
      | .windowChange =>
        match env.decodeDims r.payload with
        | some d =>
          if r.wantReply then
            -- the reply's error is discarded (`//nolint:errcheck`); never exits
            ({ s with pty := { s.pty with columns := d.columns, rows := d.rows } },
              [fwd, .replyClient .windowChange r.sendOk none], false)
          else
            ({ s with pty := { s.pty with columns := d.columns, rows := d.rows } },
              [fwd], false)
        | none =>
          if r.wantReply then
            ({ s with pty := { s.pty with columns := 0, rows := 0 } },
              [fwd, .rejectChannel "failed to recover the session dimensions",
                .replyClient .windowChange r.sendOk none],
              false)
          else
            ({ s with pty := { s.pty with columns := 0, rows := 0 } },
              [fwd, .rejectChannel "failed to recover the session dimensions"], false)
      | _ =>
        if r.wantReply then
          (s, [fwd, .replyClient r.rtype r.sendOk none], r.replyErr)
        else
          (s, [fwd], false)
  | .agentReq r =>
    let fwd := Effect.sendToClient r.rtype r.wantReply r.payload
    if r.sendErr then
      (s, [fwd], false)
    else if r.wantReply then
      (s, [fwd, .replyAgent r.sendOk], r.replyErr)
    else
      (s, [fwd], false)

/-- Run the loop over an arrival-ordered event list. Returns the final
state, the effect trace, and whether the loop exited (`true`) or is still
blocked waiting for further events (`false`). -/
def runLoop (env : LoopEnv) (s : LoopState) : List Event → LoopState × List Effect × Bool
  | [] => (s, [], false)
  | e :: rest =>
    match step env s e with
    | (s1, effs, true) => (s1, effs, true)
    | (s1, effs, false) =>
      match runLoop env s1 rest with
      | (s2, effs2, ex) => (s2, effs ++ effs2, ex)

/-- The deferred cleanups registered by the time the loop runs, executed in
last-in-first-out order when the handler returns: `agent.Close`,
`client.Close`, `sess.Finish`, `conn.Close`. -/
def teardown : List Effect := [.closeAgent, .closeClient, .finish, .closeConn]

/-- Outcomes of the handler's setup phase: recovering the session from the
context, accepting the client channel, opening the agent channel. -/
structure SetupEnv where
  sessionOk : Bool
  acceptOk : Bool
  agentOpenOk : Bool
deriving DecidableEq

/-- Shallow embedding of `DefaultSessionHandler`: the setup phase with its
early-return rejections (each running the deferred cleanups registered so
far), then the multiplex loop; if the loop exits, the four deferred
cleanups run in last-in-first-out order. `pty0` is the session's
pseudo-terminal state on entry. -/
def defaultSessionHandler (se : SetupEnv) (env : LoopEnv) (pty0 : Pty)
    (evs : List Event) : List Effect :=
  if !se.sessionOk then
    [.rejectChannel "failed to recover the session created", .closeConn]
  else if !se.acceptOk then
    [.rejectChannel "failed to accept the channel opening", .finish, .closeConn]
  else if !se.agentOpenOk then
    [.rejectChannel "failed to open the 'session' channel on agent",
      .closeClient, .finish, .closeConn]
  else
    match runLoop env ⟨false, pty0⟩ evs with
    | (_, effs, ex) => effs ++ if ex then teardown else []

/-- Setup phase in which everything succeeds. -/
def setupAllOk : SetupEnv := ⟨true, true, true⟩

/-! ## Concrete wire decoders

A concrete instance of the decode oracles, used to evaluate the loop on
explicit inputs. The payload shapes follow the spec's statement of RFC 4254
sections 6.2 and 6.7. -/

/-- Read a big-endian 32-bit unsigned integer from a byte list. -/
def readUint32 : List Nat → Option (Nat × List Nat)
  | b0 :: b1 :: b2 :: b3 :: rest =>
    some (((b0 * 256 + b1) * 256 + b2) * 256 + b3, rest)
  | _ => none

/-- Read `n` raw bytes from a byte list. -/
def readBytes : Nat → List Nat → Option (List Nat × List Nat)
  | 0, rest => some ([], rest)
  | n + 1, b :: rest =>
    match readBytes n rest with
    | some (bs, rest2) => some (b :: bs, rest2)
    | none => none
  | _ + 1, [] => none

/-- Read an SSH string: a 32-bit length followed by that many bytes. -/
def readSshString (p : List Nat) : Option (List Nat × List Nat) :=
  match readUint32 p with
  | some (n, rest) => readBytes n rest
  | none => none

/-- Modelled from the spec: decoder for the `pty-req` payload
`{term, columns, rows, pixel-width, pixel-height, modes}` (the
`session.Pty` struct itself is not under src). -/
def decodePtyWire (p : List Nat) : Option Pty :=
  match readSshString p with
  | none => none
  | some (term, p1) =>
    match readUint32 p1 with
    | none => none
    | some (c, p2) =>
      match readUint32 p2 with
      | none => none
      | some (r, p3) =>
        match readUint32 p3 with
        | none => none
        | some (w, p4) =>
          match readUint32 p4 with
          | none => none
          | some (h, p5) =>
            match readSshString p5 with
            | none => none
            | some (_, _) => some ⟨term, c, r, w, h⟩

/-- Modelled from the spec: decoder for the `window-change` payload
`{columns, rows, pixel-width, pixel-height}`. -/
def decodeDimsWire (p : List Nat) : Option Dimensions :=
  match readUint32 p with
  | none => none
  | some (c, p1) =>
    match readUint32 p1 with
    | none => none
    | some (r, p2) =>
      match readUint32 p2 with
      | none => none
      | some (w, p3) =>
        match readUint32 p3 with
        | none => none
        | some (h, _) => some ⟨c, r, w, h⟩

/-- The loop environment with the concrete wire decoders. -/
def wireEnv : LoopEnv := ⟨decodePtyWire, decodeDimsWire⟩

/-! ## Effect counters -/

/-- Whether an effect starts a data pipe. -/
def isStartPipe : Effect → Bool
  | .startPipe _ => true
  | _ => false

/-- Whether an effect is a positive (granted) reply to the client for a
program-start request. -/
def isPosProgramReply : Effect → Bool
  | .replyClient t granted _ => t.isProgram && granted
  | _ => false

/-- Whether an effect is any reply to a client channel request. -/
def isClientReply : Effect → Bool
  | .replyClient _ _ _ => true
  | _ => false

/-- Whether an effect is the session finish call. -/
def isFinish : Effect → Bool
  | .finish => true
  | _ => false

/-- Number of data pipes started in a trace. -/
def countPipe : List Effect → Nat
  | [] => 0
  | e :: l => (if isStartPipe e then 1 else 0) + countPipe l

/-- Number of positive program-request replies to the client in a trace. -/
def countPosProgramReply : List Effect → Nat
  | [] => 0
  | e :: l => (if isPosProgramReply e then 1 else 0) + countPosProgramReply l

/-- Number of replies to client channel requests in a trace. -/
def countClientReply : List Effect → Nat
  | [] => 0
  | e :: l => (if isClientReply e then 1 else 0) + countClientReply l

/-- Number of session finish calls in a trace. -/
def countFinish : List Effect → Nat
  | [] => 0
  | e :: l => (if isFinish e then 1 else 0) + countFinish l

/-- The effect trace of a run of the loop. -/
def loopEffects (env : LoopEnv) (s : LoopState) (evs : List Event) : List Effect :=
  (runLoop env s evs).2.1

/-- Whether a run of the loop exited. -/
def loopExited (env : LoopEnv) (s : LoopState) (evs : List Event) : Bool :=
  (runLoop env s evs).2.2

/-! ## Concrete instances

Explicit payloads, requests and environments used to evaluate the embedded
code on concrete inputs. -/

/-- A `pty-req` payload: empty term string, columns 80, rows 24, zero pixel
dimensions, empty modes string. -/
def ptyPayload80x24 : List Nat :=
  [0,0,0,0, 0,0,0,80, 0,0,0,24, 0,0,0,0, 0,0,0,0, 0,0,0,0]

/-- A `pty-req` payload whose dimension fields are all zero. -/
def ptyPayloadZero : List Nat := List.replicate 24 0

/-- A `window-change` payload with columns 0 and rows 50. -/
def wcPayload0x50 : List Nat := [0,0,0,0, 0,0,0,50, 0,0,0,0, 0,0,0,0]

/-- A well-formed `pty-req` request (80 columns, 24 rows), reply requested. -/
def rPty80 : ChanReq := ⟨.ptyReq, true, ptyPayload80x24, false, true, false⟩

/-- A `pty-req` request whose dimension fields are all zero. -/
def rPtyZero : ChanReq := ⟨.ptyReq, true, ptyPayloadZero, false, true, false⟩

/-- A `pty-req` request with an empty (undecodable) payload. -/
def rPtyBad : ChanReq := ⟨.ptyReq, false, [], false, true, false⟩

/-- A `window-change` request carrying columns 0 and rows 50. -/
def rWC : ChanReq := ⟨.windowChange, false, wcPayload0x50, false, true, false⟩

/-- A `window-change` request whose requested reply fails. -/
def rWCReplyFail : ChanReq := ⟨.windowChange, true, wcPayload0x50, false, true, true⟩

/-- A `shell` request that the agent grants, reply requested. -/
def rShell : ChanReq := ⟨.shell, true, [], false, true, false⟩

/-- An `exec` request whose forwarding to the agent errors. -/
def rExecErr : ChanReq := ⟨.exec, true, [], true, false, false⟩

/-- An `exec` request forwarded successfully, reply requested. -/
def rExec : ChanReq := ⟨.exec, true, [], false, true, false⟩

/-- A `subsystem` request with the want-reply flag unset. -/
def rSubsysNoReply : ChanReq := ⟨.subsystem, false, [], false, true, false⟩

/-- A keep-alive global request whose API call fails. -/
def rKeepAliveErr : GlobalReq := ⟨.keepalive, true, true, false⟩

/-- A keep-alive global request whose API call succeeds. -/
def rKeepAliveOk : GlobalReq := ⟨.keepalive, true, false, false⟩

/-- A concrete parsed target: direct device reference, username `alice`. -/
def tagA : Target := ⟨"dev1", false, "alice"⟩

/-- A concrete device record. -/
def devA : Device := ⟨"uid1", "dev1", "ns", "tenant"⟩

/-- An authenticator environment in which every external call succeeds and
key evaluation authorizes the key; the magic fingerprint is `magic`. -/
def envAccept : AuthEnv :=
  { ctxUser := some "sshid"
    newTarget := fun _ => some tagA
    splitSSHID := fun _ => none
    getDevice := fun _ => some devA
    deviceLookup := fun _ _ => some devA
    magicFingerprint := some "magic"
    getPublicKey := fun _ _ => true
    evaluateKey := fun _ _ _ => (true, false) }

/-- An authenticator environment whose magic fingerprint is `fp` and in
which the two key API calls would reject if they were ever consulted. -/
def envMagic : AuthEnv :=
  { ctxUser := some "sshid"
    newTarget := fun _ => some tagA
    splitSSHID := fun _ => none
    getDevice := fun _ => some devA
    deviceLookup := fun _ _ => some devA
    magicFingerprint := some "fp"
    getPublicKey := fun _ _ => false
    evaluateKey := fun _ _ _ => (false, true) }

/-! ## Theorems -/

/-! ### Helper lemmas about traces and the loop -/

theorem countPipe_append (a b : List Effect) :
    countPipe (a ++ b) = countPipe a + countPipe b := by
  induction a with
  | nil => simp [countPipe]
  | cons e l ih => simp [countPipe, ih]; omega

theorem countPosProgramReply_append (a b : List Effect) :
    countPosProgramReply (a ++ b) =
      countPosProgramReply a + countPosProgramReply b := by
  induction a with
  | nil => simp [countPosProgramReply]
  | cons e l ih => simp [countPosProgramReply, ih]; omega

theorem countFinish_append (a b : List Effect) :
    countFinish (a ++ b) = countFinish a + countFinish b := by
  induction a with
  | nil => simp [countFinish]
  | cons e l ih => simp [countFinish, ih]; omega

/-- Once a program has started, a loop step keeps the `started` flag set and
emits no pipe start and no positive program reply. -/
theorem step_started_effects (env : LoopEnv) (s : LoopState) (e : Event)
    (hs : s.started = true) :
    (step env s e).1.started = true ∧
    countPipe (step env s e).2.1 = 0 ∧
    countPosProgramReply (step env s e).2.1 = 0 := by
  cases e with
  | ctxDone => simp [step, hs, countPipe, countPosProgramReply]
  | agentGlobalClosed => simp [step, hs, countPipe, countPosProgramReply]
  | clientClosed => simp [step, hs, countPipe, countPosProgramReply]
  | agentReqsClosed => simp [step, hs, countPipe, countPosProgramReply]
  | agentGlobal r =>
    rcases r with ⟨rt, wr, ka, re⟩
    cases rt <;> cases wr <;> cases ka <;>
      simp [step, hs, countPipe, countPosProgramReply, isStartPipe,
        isPosProgramReply]
  | clientReq r =>
    rcases r with ⟨rt, wr, p, se, so, re⟩
    cases se with
    | true =>
      simp [step, hs, countPipe, countPosProgramReply, isStartPipe,
        isPosProgramReply]
    | false =>
      cases rt with
      | shell =>
        simp [step, hs, countPipe, countPosProgramReply, isStartPipe,
          isPosProgramReply, ReqType.isProgram]
      | exec =>
        simp [step, hs, countPipe, countPosProgramReply, isStartPipe,
          isPosProgramReply, ReqType.isProgram]
      | subsystem =>
        simp [step, hs, countPipe, countPosProgramReply, isStartPipe,
          isPosProgramReply, ReqType.isProgram]
      | ptyReq =>
        rcases hdp : env.decodePty p with _ | pty <;> cases wr <;>
          simp [step, hs, hdp, countPipe, countPosProgramReply, isStartPipe,
            isPosProgramReply, ReqType.isProgram]
      | windowChange =>
        rcases hdd : env.decodeDims p with _ | d <;> cases wr <;>
          simp [step, hs, hdd, countPipe, countPosProgramReply, isStartPipe,
            isPosProgramReply, ReqType.isProgram]
      | keepalive =>
        cases wr <;>
          simp [step, hs, countPipe, countPosProgramReply, isStartPipe,
            isPosProgramReply, ReqType.isProgram]
      | other s' =>
        cases wr <;>
          simp [step, hs, countPipe, countPosProgramReply, isStartPipe,
            isPosProgramReply, ReqType.isProgram]
  | agentReq r =>
    rcases r with ⟨rt, wr, p, se, so, re⟩
    cases se <;> cases wr <;>
      simp [step, hs, countPipe, countPosProgramReply, isStartPipe,
        isPosProgramReply]

/-- Before a program has started, a loop step starts at most one pipe and
sends at most one positive program reply, and if it neither exits nor sets
the `started` flag it does neither. -/
theorem step_not_started_effects (env : LoopEnv) (s : LoopState) (e : Event)
    (hs : s.started = false) :
    countPipe (step env s e).2.1 ≤ 1 ∧
    countPosProgramReply (step env s e).2.1 ≤ 1 ∧
    ((step env s e).2.2 = false → (step env s e).1.started = false →
      countPipe (step env s e).2.1 = 0 ∧
      countPosProgramReply (step env s e).2.1 = 0) := by
  cases e with
  | ctxDone => simp [step, countPipe, countPosProgramReply]
  | agentGlobalClosed => simp [step, countPipe, countPosProgramReply]
  | clientClosed => simp [step, countPipe, countPosProgramReply]
  | agentReqsClosed => simp [step, countPipe, countPosProgramReply]
  | agentGlobal r =>
    rcases r with ⟨rt, wr, ka, re⟩
    cases rt <;> cases wr <;> cases ka <;>
      simp [step, countPipe, countPosProgramReply, isStartPipe,
        isPosProgramReply]
  | clientReq r =>
    rcases r with ⟨rt, wr, p, se, so, re⟩
    cases se with
    | true =>
      simp [step, countPipe, countPosProgramReply, isStartPipe,
        isPosProgramReply]
    | false =>
      cases rt with
      | shell =>
        cases wr <;> cases re <;> cases so <;>
          simp [step, hs, countPipe, countPosProgramReply, isStartPipe,
            isPosProgramReply, ReqType.isProgram]
      | exec =>
        cases wr <;> cases re <;> cases so <;>
          simp [step, hs, countPipe, countPosProgramReply, isStartPipe,
            isPosProgramReply, ReqType.isProgram]
      | subsystem =>
        cases wr <;> cases re <;> cases so <;>
          simp [step, hs, countPipe, countPosProgramReply, isStartPipe,
            isPosProgramReply, ReqType.isProgram]
      | ptyReq =>
        rcases hdp : env.decodePty p with _ | pty <;> cases wr <;>
          simp [step, hs, hdp, countPipe, countPosProgramReply, isStartPipe,
            isPosProgramReply, ReqType.isProgram]
      | windowChange =>
        rcases hdd : env.decodeDims p with _ | d <;> cases wr <;>
          simp [step, hs, hdd, countPipe, countPosProgramReply, isStartPipe,
            isPosProgramReply, ReqType.isProgram]
      | keepalive =>
        cases wr <;>
          simp [step, hs, countPipe, countPosProgramReply, isStartPipe,
            isPosProgramReply, ReqType.isProgram]
      | other s' =>
        cases wr <;>
          simp [step, hs, countPipe, countPosProgramReply, isStartPipe,
            isPosProgramReply, ReqType.isProgram]
  | agentReq r =>
    rcases r with ⟨rt, wr, p, se, so, re⟩
    cases se <;> cases wr <;>
      simp [step, countPipe, countPosProgramReply, isStartPipe,
        isPosProgramReply]

/-- A loop step never calls the session finish operation: finishing is done
only by the handler's deferred cleanup. -/
theorem step_no_finish (env : LoopEnv) (s : LoopState) (e : Event) :
    countFinish (step env s e).2.1 = 0 := by
  cases e with
  | ctxDone => simp [step, countFinish]
  | agentGlobalClosed => simp [step, countFinish]
  | clientClosed => simp [step, countFinish]
  | agentReqsClosed => simp [step, countFinish]
  | agentGlobal r =>
    rcases r with ⟨rt, wr, ka, re⟩
    cases rt <;> cases wr <;> cases ka <;>
      simp [step, countFinish, isFinish]
  | clientReq r =>
    rcases r with ⟨rt, wr, p, se, so, re⟩
    cases se with
    | true => simp [step, countFinish, isFinish]
    | false =>
      cases rt <;>
        cases hst : s.started <;>
        (try rcases hdp : env.decodePty p with _ | pty) <;>
        (try rcases hdd : env.decodeDims p with _ | d) <;>
        cases wr <;> cases re <;>
        simp [step, hst, hdp, hdd, countFinish, isFinish, ReqType.isProgram]
  | agentReq r =>
    rcases r with ⟨rt, wr, p, se, so, re⟩
    cases se <;> cases wr <;> simp [step, countFinish, isFinish]

/-- Unfolding of the loop's effect trace over one event. -/
theorem loopEffects_cons (env : LoopEnv) (s : LoopState) (e : Event)
    (rest : List Event) :
    loopEffects env s (e :: rest) =
      (step env s e).2.1 ++
        (if (step env s e).2.2 then [] else loopEffects env (step env s e).1 rest) := by
  unfold loopEffects
  rcases h : step env s e with ⟨s1, effs, ex⟩
  cases ex with
  | false =>
    rcases h2 : runLoop env s1 rest with ⟨s2, effs2, ex2⟩
    simp [runLoop, h, h2]
  | true => simp [runLoop, h]

/-- Unfolding of the loop's exit flag over one event. -/
theorem loopExited_cons (env : LoopEnv) (s : LoopState) (e : Event)
    (rest : List Event) :
    loopExited env s (e :: rest) =
      ((step env s e).2.2 || loopExited env (step env s e).1 rest) := by
  unfold loopExited
  rcases h : step env s e with ⟨s1, effs, ex⟩
  cases ex with
  | false =>
    rcases h2 : runLoop env s1 rest with ⟨s2, effs2, ex2⟩
    simp [runLoop, h, h2]
  | true => simp [runLoop, h]

/-- The loop body never calls the session finish operation. -/
theorem runLoop_no_finish (env : LoopEnv) (evs : List Event) :
    ∀ s : LoopState, countFinish (loopEffects env s evs) = 0 := by
  induction evs with
  | nil => intro s; simp [loopEffects, runLoop, countFinish]
  | cons e rest ih =>
    intro s
    rw [loopEffects_cons env s e rest]
    cases hex : (step env s e).2.2 with
    | false => simp [countFinish_append, step_no_finish, ih]
    | true => simp [countFinish_append, step_no_finish]

/-- Over any event sequence, the loop starts at most one data pipe and
sends at most one positive program reply; from a started state it does
neither. -/
theorem runLoop_counts (env : LoopEnv) (evs : List Event) :
    ∀ s : LoopState,
      (s.started = true → countPipe (loopEffects env s evs) = 0 ∧
        countPosProgramReply (loopEffects env s evs) = 0) ∧
      countPipe (loopEffects env s evs) ≤ 1 ∧
      countPosProgramReply (loopEffects env s evs) ≤ 1 := by
  induction evs with
  | nil =>
    intro s
    simp [loopEffects, runLoop, countPipe, countPosProgramReply]
  | cons e rest ih =>
    intro s
    have hcons := loopEffects_cons env s e rest
    cases hex : (step env s e).2.2 with
    | true =>
      rw [hex] at hcons
      simp only [if_pos] at hcons
      rw [List.append_nil] at hcons
      rw [hcons]
      cases hst : s.started with
      | true =>
        obtain ⟨_, hp, hr⟩ := step_started_effects env s e hst
        simp [hp, hr]
      | false =>
        obtain ⟨hp, hr, _⟩ := step_not_started_effects env s e hst
        refine ⟨?_, hp, hr⟩
        intro hcontra
        exact absurd hcontra (by simp)
    | false =>
      rw [hex] at hcons
      simp only [Bool.false_eq_true, if_neg, not_false_eq_true] at hcons
      rw [hcons, countPipe_append, countPosProgramReply_append]
      cases hst : s.started with
      | true =>
        obtain ⟨hmono, hp, hr⟩ := step_started_effects env s e hst
        obtain ⟨htail, _, _⟩ := ih (step env s e).1
        obtain ⟨htp, htr⟩ := htail hmono
        exact ⟨fun _ => by simp [hp, hr, htp, htr], by simp [hp, hr, htp, htr]⟩
      | false =>
        obtain ⟨hp1, hr1, hzero⟩ := step_not_started_effects env s e hst
        refine ⟨fun hcontra => absurd hcontra (by simp [hst]), ?_, ?_⟩
        · cases hs1 : (step env s e).1.started with
          | true =>
            obtain ⟨htail, _, _⟩ := ih (step env s e).1
            obtain ⟨htp, _⟩ := htail hs1
            omega
          | false =>
            obtain ⟨hzp, hzr⟩ := hzero hex hs1
            obtain ⟨_, htp, _⟩ := ih (step env s e).1
            omega
        · cases hs1 : (step env s e).1.started with
          | true =>
            obtain ⟨htail, _, _⟩ := ih (step env s e).1
            obtain ⟨_, htr⟩ := htail hs1
            omega
          | false =>
            obtain ⟨hzp, hzr⟩ := hzero hex hs1
            obtain ⟨_, _, htr⟩ := ih (step env s e).1
            omega

/-- C3: for every presented key whose fingerprint differs from the magic
key's fingerprint, the Authenticator returns accept if and only if context
identifier recovery, target parsing and device resolution all succeed, the
`GetPublicKey` call succeeds, and the `EvaluateKey` call returns true with
no error; hence a failure in any single stage makes it return reject. -/
theorem publicKey_nonmagic_accept_iff (env : AuthEnv) (fp magic : String)
    (hm : env.magicFingerprint = some magic) (hne : magic ≠ fp) :
    (publicKey env fp).accept = true ↔
      ∃ sshid tag device,
        env.ctxUser = some sshid ∧
        env.newTarget sshid = some tag ∧
        resolveDevice env tag = some device ∧
        env.getPublicKey fp device.tenantID = true ∧
        env.evaluateKey fp device tag.username = (true, false) := by
  cases hc : env.ctxUser with
  | none => simp [publicKey, hc]
  | some sshid =>
    cases ht : env.newTarget sshid with
    | none => simp [publicKey, hc, ht]
    | some tag =>
      cases hd : resolveDevice env tag with
      | none => simp [publicKey, hc, ht, hd]
      | some device =>
        cases hgp : env.getPublicKey fp device.tenantID with
        | false => simp [publicKey, hc, ht, hd, hm, hne, hgp]
        | true =>
          cases hek : env.evaluateKey fp device tag.username with
          | mk ok hasErr =>
            cases ok <;> cases hasErr <;>
              simp [publicKey, hc, ht, hd, hm, hne, hgp, hek]

/-- Witness for C3: in the all-succeeding environment `envAccept`, the
non-magic key `fp` is accepted, and the theorem's equivalence holds. -/
theorem publicKey_nonmagic_accept_iff_witness :
    (envAccept.magicFingerprint = some "magic" ∧ "magic" ≠ "fp") ∧
      ((publicKey envAccept "fp").accept = true ↔
        ∃ sshid tag device,
          envAccept.ctxUser = some sshid ∧
          envAccept.newTarget sshid = some tag ∧
          resolveDevice envAccept tag = some device ∧
          envAccept.getPublicKey "fp" device.tenantID = true ∧
          envAccept.evaluateKey "fp" device tag.username = (true, false)) :=
  ⟨⟨rfl, by decide⟩, publicKey_nonmagic_accept_iff envAccept "fp" "magic" rfl (by decide)⟩

/-- C4: for every presented key whose legacy-MD5 fingerprint equals the
magic key pair's fingerprint, the Authenticator accepts without invoking
`GetPublicKey` or `EvaluateKey`, provided the context identifier recovery,
target parsing and device resolution preceding the fingerprint comparison
succeeded. -/
theorem publicKey_magic_bypass (env : AuthEnv) (fp sshid : String)
    (tag : Target) (device : Device)
    (h1 : env.ctxUser = some sshid) (h2 : env.newTarget sshid = some tag)
    (h3 : resolveDevice env tag = some device)
    (hm : env.magicFingerprint = some fp) :
    publicKey env fp = ⟨true, false, false⟩ := by
  simp [publicKey, h1, h2, h3, hm]

/-- Witness for C4: in `envMagic` (whose magic fingerprint is `fp` and whose
key API calls would reject), the presented key `fp` is accepted with
neither key API call made. -/
theorem publicKey_magic_bypass_witness :
    (envMagic.ctxUser = some "sshid" ∧
      envMagic.newTarget "sshid" = some tagA ∧
      resolveDevice envMagic tagA = some devA ∧
      envMagic.magicFingerprint = some "fp") ∧
      publicKey envMagic "fp" = ⟨true, false, false⟩ :=
  ⟨⟨rfl, rfl, rfl, rfl⟩,
    publicKey_magic_bypass envMagic "fp" "sshid" tagA devA rfl rfl rfl rfl⟩

/-- Counterexample for C1: after a `shell` request started the program, an
`exec` request whose forwarding to the agent errors is dropped by
`continue` — the broker sends it no reply at all, negative or otherwise. -/
theorem program_after_started_no_reply_counterexample :
    (step wireEnv ⟨false, Pty.zero⟩ (.clientReq rShell)).1.started = true ∧
    countClientReply
      (step wireEnv (step wireEnv ⟨false, Pty.zero⟩ (.clientReq rShell)).1
        (.clientReq rExecErr)).2.1 = 0 ∧
    (step wireEnv (step wireEnv ⟨false, Pty.zero⟩ (.clientReq rShell)).1
        (.clientReq rExecErr)).2.1 = [.sendToAgent .exec true []] := by
  decide

/-- C1 (amended): on one session channel at most one shell/exec/subsystem
request receives a positive reply and at most one data pipe is started; once
a program has been marked started, a program request whose forwarding
succeeds receives a negative reply and starts no pipe, while one whose
forwarding errors is dropped without any reply (and also starts no pipe). -/
theorem program_single_success :
    (∀ (env : LoopEnv) (pty0 : Pty) (evs : List Event),
      countPipe (loopEffects env ⟨false, pty0⟩ evs) ≤ 1 ∧
      countPosProgramReply (loopEffects env ⟨false, pty0⟩ evs) ≤ 1) ∧
    (∀ (env : LoopEnv) (s : LoopState) (r : ChanReq),
      s.started = true → r.rtype.isProgram = true →
      countPipe (step env s (.clientReq r)).2.1 = 0 ∧
      (r.sendErr = false →
        (step env s (.clientReq r)).2.1 =
          [.sendToAgent r.rtype r.wantReply r.payload,
            .replyClient r.rtype false none]) ∧
      (r.sendErr = true →
        (step env s (.clientReq r)).2.1 =
          [.sendToAgent r.rtype r.wantReply r.payload])) := by
  constructor
  · intro env pty0 evs
    obtain ⟨_, hp, hr⟩ := runLoop_counts env evs ⟨false, pty0⟩
    exact ⟨hp, hr⟩
  · intro env s r hs hp
    rcases r with ⟨rt, wr, p, se, so, re⟩
    cases rt <;> simp [ReqType.isProgram] at hp <;> cases se <;>
      simp [step, hs, countPipe, isStartPipe, ReqType.isProgram]

/-- Witness for C1 (amended): the bounds at a concrete two-request trace,
and the started-state facts at a concrete `exec` request. -/
theorem program_single_success_witness :
    (countPipe (loopEffects wireEnv ⟨false, Pty.zero⟩
        [.clientReq rShell, .clientReq rExec]) ≤ 1 ∧
      countPosProgramReply (loopEffects wireEnv ⟨false, Pty.zero⟩
        [.clientReq rShell, .clientReq rExec]) ≤ 1) ∧
    ((⟨true, Pty.zero⟩ : LoopState).started = true ∧
      rExec.rtype.isProgram = true ∧
      countPipe (step wireEnv ⟨true, Pty.zero⟩ (.clientReq rExec)).2.1 = 0) :=
  ⟨program_single_success.1 wireEnv Pty.zero [.clientReq rShell, .clientReq rExec],
    ⟨rfl, rfl,
      (program_single_success.2 wireEnv ⟨true, Pty.zero⟩ rExec rfl rfl).1⟩⟩

/-- C10: a shell/exec/subsystem request with the want-reply flag unset,
arriving while no program has started, is forwarded to the agent but the
broker does not mark the channel started, sends no reply, starts no pipe,
and the loop continues. -/
theorem program_no_want_reply (env : LoopEnv) (s : LoopState) (r : ChanReq)
    (h1 : s.started = false) (h2 : r.rtype.isProgram = true)
    (h3 : r.wantReply = false) :
    step env s (.clientReq r) =
      (s, [.sendToAgent r.rtype false r.payload], false) := by
  cases hrt : r.rtype <;> rw [hrt] at h2 <;>
    simp [ReqType.isProgram] at h2 <;>
    cases hse : r.sendErr <;>
    simp [step, hrt, hse, h1, h3, ReqType.isProgram]

/-- Witness for C10: a `subsystem` request without want-reply at the
initial state. -/
theorem program_no_want_reply_witness :
    ((⟨false, Pty.zero⟩ : LoopState).started = false ∧
      rSubsysNoReply.rtype.isProgram = true ∧
      rSubsysNoReply.wantReply = false) ∧
    step wireEnv ⟨false, Pty.zero⟩ (.clientReq rSubsysNoReply) =
      (⟨false, Pty.zero⟩, [.sendToAgent .subsystem false []], false) :=
  ⟨⟨rfl, rfl, rfl⟩,
    program_no_want_reply wireEnv ⟨false, Pty.zero⟩ rSubsysNoReply rfl rfl rfl⟩

/-- C5: on a `keepalive` global request from the agent, the broker calls
the session keep-alive API and replies false with no payload; if the
keep-alive call errors, the multiplex loop exits at once and the handler's
cleanup finishes the session. -/
theorem keepalive_request (env : LoopEnv) (s : LoopState) (r : GlobalReq)
    (pty0 : Pty) (rest : List Event) (h : r.rtype = .keepalive) :
    (r.keepAliveErr = false →
      step env s (.agentGlobal r) =
        (s, [.keepAliveCall, .replyAgentGlobal false], false)) ∧
    (r.keepAliveErr = true →
      runLoop env s (.agentGlobal r :: rest) = (s, [.keepAliveCall], true)) ∧
    (r.keepAliveErr = true →
      defaultSessionHandler setupAllOk env pty0 (.agentGlobal r :: rest) =
        [.keepAliveCall, .closeAgent, .closeClient, .finish, .closeConn]) := by
  refine ⟨?_, ?_, ?_⟩ <;> intro hka <;>
    simp [step, runLoop, defaultSessionHandler, setupAllOk, teardown, h, hka]

/-- Witness for C5: a succeeding and a failing keep-alive at concrete
inputs. -/
theorem keepalive_request_witness :
    (rKeepAliveOk.rtype = .keepalive ∧ rKeepAliveErr.rtype = .keepalive) ∧
    step wireEnv ⟨false, Pty.zero⟩ (.agentGlobal rKeepAliveOk) =
      (⟨false, Pty.zero⟩, [.keepAliveCall, .replyAgentGlobal false], false) ∧
    defaultSessionHandler setupAllOk wireEnv Pty.zero
        [.agentGlobal rKeepAliveErr] =
      [.keepAliveCall, .closeAgent, .closeClient, .finish, .closeConn] :=
  ⟨⟨rfl, rfl⟩,
    (keepalive_request wireEnv ⟨false, Pty.zero⟩ rKeepAliveOk Pty.zero []
      rfl).1 rfl,
    ((keepalive_request wireEnv ⟨false, Pty.zero⟩ rKeepAliveErr Pty.zero []
      rfl).2.2) rfl⟩

/-- C6: with the setup phase succeeded, the handler calls the session's
finish operation exactly once whenever the multiplex loop exits (through
cancellation, any channel closing, or a fatal reply failure), and never
while the loop is still running. -/
theorem session_finish_exactly_once (env : LoopEnv) (pty0 : Pty)
    (evs : List Event) :
    countFinish (defaultSessionHandler setupAllOk env pty0 evs) =
      if loopExited env ⟨false, pty0⟩ evs then 1 else 0 := by
  have hnf := runLoop_no_finish env evs ⟨false, pty0⟩
  unfold loopEffects at hnf
  unfold defaultSessionHandler setupAllOk loopExited
  rcases h : runLoop env ⟨false, pty0⟩ evs with ⟨s1, effs, ex⟩
  rw [h] at hnf
  simp only at hnf
  cases ex <;>
    simp [countFinish_append, hnf, teardown, countFinish, isFinish]

/-- Counterexample for C7: a malformed `pty-req` does emit the channel
rejection, but the session's stored pseudo-terminal state is overwritten
with the zero-value decode result — it does not keep the previously stored
80x24 dimensions. -/
theorem pty_malformed_counterexample :
    Effect.rejectChannel "failed to recover the session dimensions" ∈
      loopEffects wireEnv ⟨false, Pty.zero⟩
        [.clientReq rPty80, .clientReq rPtyBad] ∧
    (runLoop wireEnv ⟨false, Pty.zero⟩ [.clientReq rPty80]).1.pty =
      ⟨[], 80, 24, 0, 0⟩ ∧
    (runLoop wireEnv ⟨false, Pty.zero⟩
        [.clientReq rPty80, .clientReq rPtyBad]).1.pty = Pty.zero ∧
    Pty.zero ≠ (⟨[], 80, 24, 0, 0⟩ : Pty) := by
  decide

/-- C7 (amended): on a `pty-req` whose payload fails to decode, the broker
emits the channel rejection (the request is not silently ignored), but it
still overwrites the session's pseudo-terminal state with the zero-value
decode result, and the loop continues unless a requested reply fails. -/
theorem pty_malformed_reject_and_overwrite (env : LoopEnv) (s : LoopState)
    (r : ChanReq) (h1 : r.rtype = .ptyReq)
    (h2 : env.decodePty r.payload = none) (h3 : r.sendErr = false) :
    Effect.rejectChannel "failed to recover the session dimensions" ∈
      (step env s (.clientReq r)).2.1 ∧
    (step env s (.clientReq r)).1.pty = Pty.zero ∧
    (step env s (.clientReq r)).2.2 = (r.wantReply && r.replyErr) := by
  cases hw : r.wantReply <;>
    simp [step, h1, h2, h3, hw, ReqType.isProgram]

/-- Witness for C7 (amended): the undecodable empty `pty-req` payload. -/
theorem pty_malformed_reject_and_overwrite_witness :
    (rPtyBad.rtype = .ptyReq ∧ wireEnv.decodePty rPtyBad.payload = none ∧
      rPtyBad.sendErr = false) ∧
    Effect.rejectChannel "failed to recover the session dimensions" ∈
      (step wireEnv ⟨false, Pty.zero⟩ (.clientReq rPtyBad)).2.1 :=
  ⟨⟨rfl, rfl, rfl⟩,
    (pty_malformed_reject_and_overwrite wireEnv ⟨false, Pty.zero⟩ rPtyBad
      rfl rfl rfl).1⟩

/-- Counterexample for C8: a `window-change` request whose requested reply
fails does not terminate the loop — the reply call is made (count 1), its
error is discarded, and the step does not exit. -/
theorem reply_failure_nonfatal_counterexample :
    rWCReplyFail.wantReply = true ∧ rWCReplyFail.replyErr = true ∧
    countClientReply
      (step wireEnv ⟨false, Pty.zero⟩ (.clientReq rWCReplyFail)).2.1 = 1 ∧
    (step wireEnv ⟨false, Pty.zero⟩ (.clientReq rWCReplyFail)).2.2 = false := by
  decide

/-- C8 (amended): the loop exits exactly on context cancellation, on any of
the three request channels closing, on a keep-alive API failure, and on
reply failures on the program, `pty-req`, default client-request and agent
channel-request paths; reply failures for `window-change`, for the
keep-alive reply, and for unsupported agent global requests do not
terminate the loop. -/
theorem loop_exit_characterization (env : LoopEnv) (s : LoopState) :
    ((step env s .ctxDone).2.2 = true) ∧
    ((step env s .agentGlobalClosed).2.2 = true) ∧
    ((step env s .clientClosed).2.2 = true) ∧
    ((step env s .agentReqsClosed).2.2 = true) ∧
    (∀ r : GlobalReq, (step env s (.agentGlobal r)).2.2 =
      (r.rtype.isKeepaliveType && r.keepAliveErr)) ∧
    (∀ r : ChanReq, (step env s (.clientReq r)).2.2 =
      (!r.sendErr && r.replyErr &&
        (r.rtype.isProgram && (s.started || r.wantReply) ||
          !r.rtype.isProgram && !r.rtype.isWindowChangeType && r.wantReply))) ∧
    (∀ r : ChanReq, (step env s (.agentReq r)).2.2 =
      (!r.sendErr && r.wantReply && r.replyErr)) := by
  refine ⟨rfl, rfl, rfl, rfl, ?_, ?_, ?_⟩
  · intro r
    rcases r with ⟨rt, wr, ka, re⟩
    cases rt <;> cases wr <;> cases ka <;>
      simp [step, ReqType.isKeepaliveType]
  · intro r
    rcases r with ⟨rt, wr, p, se, so, re⟩
    cases se with
    | true =>
      cases rt <;> simp [step]
    | false =>
      cases rt <;>
        cases hst : s.started <;>
        (try rcases hdp : env.decodePty p with _ | pty) <;>
        (try rcases hdd : env.decodeDims p with _ | d) <;>
        cases wr <;> cases re <;>
        simp [step, hst, hdp, hdd, ReqType.isProgram,
          ReqType.isWindowChangeType, ReqType.isKeepaliveType]
  · intro r
    rcases r with ⟨rt, wr, p, se, so, re⟩
    cases se <;> cases wr <;> simp [step]

/-- Counterexample for C9: on cancellation the actual teardown runs the
session finish before the connection close, not after it as claimed. -/
theorem teardown_order_counterexample :
    defaultSessionHandler setupAllOk wireEnv Pty.zero [.ctxDone] =
      [.closeAgent, .closeClient, .finish, .closeConn] ∧
    ¬ ((defaultSessionHandler setupAllOk wireEnv Pty.zero
          [.ctxDone]).indexOf Effect.closeConn <
        (defaultSessionHandler setupAllOk wireEnv Pty.zero
          [.ctxDone]).indexOf Effect.finish) := by
  decide

/-- C9 (amended): on context cancellation the handler performs the ordered
teardown close agent channel, close client channel, finish the session,
close the underlying connection — the deferred cleanups in last-in
first-out order. -/
theorem cancellation_teardown_order (env : LoopEnv) (pty0 : Pty)
    (rest : List Event) :
    defaultSessionHandler setupAllOk env pty0 (.ctxDone :: rest) =
      [.closeAgent, .closeClient, .finish, .closeConn] := by
  simp [defaultSessionHandler, setupAllOk, runLoop, step, teardown]

/-- C2 (code evaluation at the failing inputs): after a `pty-req` stored
80x24, an all-zero `pty-req` overwrites the stored dimensions with zeros,
and a `window-change` with zero columns overwrites the stored columns with
zero while rows becomes 50 — the code keeps no previously stored value. -/
theorem pty_zero_dimensions_overwrite :
    ((runLoop wireEnv ⟨false, Pty.zero⟩ [.clientReq rPty80]).1.pty.columns = 80 ∧
      (runLoop wireEnv ⟨false, Pty.zero⟩ [.clientReq rPty80]).1.pty.rows = 24) ∧
    ((runLoop wireEnv ⟨false, Pty.zero⟩
        [.clientReq rPty80, .clientReq rPtyZero]).1.pty.columns = 0 ∧
      (runLoop wireEnv ⟨false, Pty.zero⟩
        [.clientReq rPty80, .clientReq rPtyZero]).1.pty.rows = 0) ∧
    ((runLoop wireEnv ⟨false, Pty.zero⟩
        [.clientReq rPty80, .clientReq rWC]).1.pty.columns = 0 ∧
      (runLoop wireEnv ⟨false, Pty.zero⟩
        [.clientReq rPty80, .clientReq rWC]).1.pty.rows = 50) := by
  decide

end ShellHub
